import Mathlib

/-!
# Verification of the Ensto BLE thermostat protocol core

Shallow embedding, in Lean 4, of the protocol engine of the
`hass_ensto_ble` integration: the binary codec for the thermostat's GATT
characteristics, the chunked ("split") transfer protocol, the session
connect logic, the real-time read coordinator and the command surface
(`custom_components/hass_ensto_ble/ensto_thermostat_manager.py`,
`data_coordinator.py`, `datetime.py`).

Bytes are modelled as `Nat` values below 256, byte strings as `List Nat`.
Python `float` temperature values are modelled as `Rat`; `int(x)` on a
float is truncation toward zero (`pyTrunc`).  GATT traffic and delays are
modelled as explicit `GattOp` events so that theorems can speak about
which writes a command performs and in which order.
-/

namespace HassEnstoBle

/-! ## Byte-level helpers (Python `int.from_bytes` / `int.to_bytes`) -/

/-- Python `int.from_bytes([a, b], byteorder="little")`. -/
def fromLE2 (a b : Nat) : Nat := a + 256 * b

/-- Python `int.from_bytes([a, b], byteorder="little", signed=True)`. -/
def fromLE2s (a b : Nat) : Int :=
  let v := a + 256 * b
  if v < 32768 then (v : Int) else (v : Int) - 65536

/-- Python `int.from_bytes([a], byteorder="little", signed=True)`. -/
def fromI8 (a : Nat) : Int := if a < 128 then (a : Int) else (a : Int) - 256

/-- Python `int(q)` for a real value: truncation toward zero
(`⌊q⌋` for `q ≥ 0`, `-⌊-q⌋` otherwise). -/
def pyTrunc (q : Rat) : Int :=
  if 0 ≤ q then q.num / (q.den : Int) else -((-q).num / (((-q).den : Nat) : Int))

/-- Python `v.to_bytes(2, byteorder="little")` for `0 ≤ v < 2^16`. -/
def toLE2 (v : Nat) : List Nat := [v % 256, v / 256 % 256]

/-- Python `v.to_bytes(2, byteorder="little", signed=True)` for a value in
the signed 16-bit range: two's-complement little-endian bytes. -/
def toLE2s (v : Int) : List Nat := toLE2 (Int.toNat (Int.emod v 65536))

/-- Python `v.to_bytes(1, byteorder="little", signed=True)[0]` for a value in
the signed 8-bit range. -/
def toI8 (v : Int) : Nat := Int.toNat (Int.emod v 256)

/-- Byte `data[i]` under a bounds guarantee established by the caller
(the Python code only indexes after a length check). -/
def byteAt (data : List Nat) (i : Nat) : Nat := data.getD i 0

/-- Python `bytes.rstrip(b"\x00")`: drop trailing zero bytes. -/
def rstripZeros (l : List Nat) : List Nat :=
  (l.reverse.dropWhile (fun b => b == 0)).reverse

/-! ## Characteristic UUIDs (`const.py`) -/

def REAL_TIME_INDICATION_UUID : String := "66ad3e6b-3135-4ada-bb2b-8b22916b21d4"

def REAL_TIME_INDICATION_POWER_CONSUMPTION_UUID : String :=
  "c1686f28-fa1b-4791-9eca-35523fb3597e"

def BOOST_UUID : String := "ca3c0685-b708-4cd4-a049-5badd10469e7"

def VACATION_TIME_UUID : String := "6584e9c6-4784-41aa-ac09-c899191048ae"

def CALENDAR_CONTROL_UUID : String := "8219bc38-a505-4452-8b6c-165e75cff5db"

def CALENDAR_DAY_UUID : String := "20db94b9-bd18-4f84-bf16-de1163adfd8c"

def FACTORY_RESET_ID_UUID : String := "f366dddb-ebe2-43ee-83c0-472ded74c8fa"

def MODEL_NUMBER_UUID : String := "00002a24-0000-1000-8000-00805f9b34fb"

def DEVICE_NAME_UUID : String := "00002a00-0000-1000-8000-00805f9b34fb"

def FORCE_CONTROL_UUID : String := "7bd74f74-ffae-452e-bb61-b59b2faf96c9"

/-! ## Alarm / mode tables (`const.py`) -/

/-- Table `ERROR_CODES_BYTE0`, in the dict's insertion order. -/
def ERROR_CODES_BYTE0 : List (Nat × String) :=
  [(0x01, "Sensor fault (short-circuit)"),
   (0x02, "Low limit in combination mode"),
   (0x04, "High limit in combination mode"),
   (0x08, "Invalid vacation configuration"),
   (0x10, "Invalid calendar configuration"),
   (0x20, "Floor sensor missing"),
   (0x40, "Floor sensor broken"),
   (0x80, "Room sensor missing")]

/-- Table `ERROR_CODES_BYTE1`, in the dict's insertion order. -/
def ERROR_CODES_BYTE1 : List (Nat × String) :=
  [(0x01, "Room sensor broken"),
   (0x02, "Combination mode faulty set values (<8)"),
   (0x04, "Day calendar is not set")]

/-- Table `ACTIVE_MODES` lookup (`dict.get`). -/
def ACTIVE_MODES (n : Nat) : Option String :=
  match n with
  | 1 => some "Manual"
  | 2 => some "Calendar"
  | 3 => some "Vacation"
  | _ => none

/-- Table `MODE_MAP` lookup (`dict.get`). -/
def MODE_MAP (n : Nat) : Option String :=
  match n with
  | 1 => some "Floor"
  | 2 => some "Room"
  | 3 => some "Combination"
  | 4 => some "Power"
  | 5 => some "Force Control"
  | _ => none

/-! ## Real-time indication codec
(`EnstoThermostatManager.parse_real_time_indication`) -/

structure RealTimeRecord where
  targetTemperature : Rat
  temperatureSettingPercent : Nat
  roomTemperature : Rat
  floorTemperature : Rat
  relayActive : Bool
  alarmCode : Nat
  activeAlarms : List String
  activeMode : String
  heatingMode : String
  boostEnabled : Bool
  boostSetpointMinutes : Nat
  boostRemainingMinutes : Nat
  potentiometerValue : Nat
  deriving Repr, DecidableEq

/-- The alarm names whose bit is set in byte `b`, walking one error-code
table in order (the Python `for bit_mask, error_msg in error_map.items()`). -/
def alarmsFromByte (codes : List (Nat × String)) (b : Nat) : List String :=
  (codes.filter (fun p => Nat.land b p.1 != 0)).map Prod.snd

/-- Embeds `parse_real_time_indication`.  `none` models the Python `{}` returned
when the payload is missing or shorter than 20 bytes (no field of the
try-block can raise on a 20-byte bytes object, so the except-branch that
also returns `{}` is unreachable for valid-length input). -/
def parseRealTimeIndication (data : List Nat) : Option RealTimeRecord :=
  if data.length < 20 then none
  else
    some
      { targetTemperature := (fromLE2 (byteAt data 0) (byteAt data 1) : Rat) / 10
        temperatureSettingPercent := byteAt data 2
        roomTemperature := (fromLE2s (byteAt data 3) (byteAt data 4) : Rat) / 10
        floorTemperature := (fromLE2s (byteAt data 5) (byteAt data 6) : Rat) / 10
        relayActive := byteAt data 7 != 0
        alarmCode := fromLE2 (byteAt data 8) (byteAt data 9)
        activeAlarms :=
          alarmsFromByte ERROR_CODES_BYTE0 (byteAt data 8) ++
            alarmsFromByte ERROR_CODES_BYTE1 (byteAt data 9)
        activeMode := (ACTIVE_MODES (byteAt data 12)).getD "Unknown"
        heatingMode := (MODE_MAP (byteAt data 13)).getD "Unknown"
        boostEnabled := byteAt data 14 != 0
        boostSetpointMinutes := fromLE2 (byteAt data 15) (byteAt data 16)
        boostRemainingMinutes := fromLE2 (byteAt data 17) (byteAt data 18)
        potentiometerValue := byteAt data 19 }

/-- The 20-byte payload given in the specification's end-to-end scenario:
`[0xC8,0x00, 50, 0xC8,0x00, 0x00,0x00, 1, 0x00,0x00, 2, 2, 0, ...]`,
zero-padded to 20 bytes. -/
def c1PayloadBytes : List Nat :=
  [0xC8, 0x00, 50, 0xC8, 0x00, 0x00, 0x00, 1, 0x00, 0x00, 2, 2, 0, 0, 0, 0, 0, 0, 0, 0]

/-- C1, decoded record of the scenario payload as the code actually
produces it: room temperature comes from bytes 3-4 (`0xC8, 0x00` = 20.0 °C,
not 0.0 °C), and the active/heating modes come from bytes 12 and 13 (both
zero on this payload, hence "Unknown"); the `2, 2` at bytes 10-11 land in
the reserved part of the alarm code and are ignored. -/
def c1DecodedRecord : RealTimeRecord :=
  { targetTemperature := 20
    temperatureSettingPercent := 50
    roomTemperature := 20
    floorTemperature := 0
    relayActive := true
    alarmCode := 0
    activeAlarms := []
    activeMode := "Unknown"
    heatingMode := "Unknown"
    boostEnabled := false
    boostSetpointMinutes := 0
    boostRemainingMinutes := 0
    potentiometerValue := 0 }

/-- C1 (counterexample): decoding the specification's real-time scenario
payload does **not** yield room temperature 0.0 °C, active mode "Calendar"
or heating mode "Room": the payload's bytes are misaligned with the format
parsed by `parse_real_time_indication`. -/
theorem c1_counterexample :
    (parseRealTimeIndication c1PayloadBytes).map RealTimeRecord.roomTemperature ≠
      some 0 ∧
    (parseRealTimeIndication c1PayloadBytes).map RealTimeRecord.activeMode ≠
      some "Calendar" ∧
    (parseRealTimeIndication c1PayloadBytes).map RealTimeRecord.heatingMode ≠
      some "Room" := by
  refine ⟨?_, ?_, ?_⟩ <;>
    simp [parseRealTimeIndication, c1PayloadBytes, byteAt, fromLE2, fromLE2s,
      alarmsFromByte, ERROR_CODES_BYTE0, ERROR_CODES_BYTE1, ACTIVE_MODES,
      MODE_MAP, RealTimeRecord.roomTemperature]

/-- C1 (amended): decoding the 20-byte scenario payload with the
real-time-indication parser yields target temperature 20.0 °C, temperature
setting 50 %, floor temperature 0.0 °C, relay on and no active alarms as
claimed, but room temperature 20.0 °C (bytes 3-4 are `0xC8, 0x00`), active
mode "Unknown" and heating mode "Unknown" (bytes 12 and 13 are zero). -/
theorem c1_amended_theorem :
    parseRealTimeIndication c1PayloadBytes = some c1DecodedRecord := by
  simp [parseRealTimeIndication, c1PayloadBytes, c1DecodedRecord, byteAt,
    fromLE2, fromLE2s, alarmsFromByte, ERROR_CODES_BYTE0, ERROR_CODES_BYTE1,
    ACTIVE_MODES, MODE_MAP]
  exact ⟨by norm_num, by decide⟩

/-! ## GATT operations

One constructor per externally visible effect of the manager: a
characteristic write, a characteristic read, an `asyncio.sleep` delay (in
milliseconds), the `establish_connection`/`pair` transport calls of
`connect`, and the reconnect attempt made by `ensure_connection`. -/

inductive GattOp where
  | writeChar (uuid : String) (bytes : List Nat)
  | readChar (uuid : String)
  | sleepMs (ms : Nat)
  | establishConnection
  | pairDevice
  | connectAttempt
  deriving Repr, DecidableEq, BEq

def isWriteOp (op : GattOp) : Bool :=
  match op with
  | GattOp.writeChar _ _ => true
  | _ => false

/-! ## Chunked ("split") transfer protocol
(`read_split_characteristic` / `write_split_characteristic`) -/

/-- The read-reassembly loop of `read_split_characteristic`.  The device
is modelled as the list of frames successive `read_gatt_char` calls
return; an exhausted list stands for the device answering with empty
frames, which the loop treats as end-of-stream (`if not packet or
len(packet) < 1: break`).  Each frame's bytes after the single header
byte are appended to the accumulator; a header with bit `0x40` set ends
the loop. -/
def readSplitLoop : List Nat → List (List Nat) → List Nat
  | acc, [] => acc
  | acc, [] :: _ => acc
  | acc, (hdr :: payload) :: rest =>
    if Nat.land hdr 0x40 != 0 then acc ++ payload
    else readSplitLoop (acc ++ payload) rest

/-- Embeds `read_split_characteristic`: reassemble the frames, then strip the
trailing zero padding (`bytes(combined_data).rstrip(b"\x00")`). -/
def readSplitCharacteristic (frames : List (List Nat)) : List Nat :=
  rstripZeros (readSplitLoop [] frames)

/-- The split point `chunk_size = len(data) // 2 + (len(data) % 2)` — the ceil-half split
point of `write_split_characteristic`. -/
def chunkSize (n : Nat) : Nat := n / 2 + n % 2

/-- Embeds `write_split_characteristic`: always exactly two frames
(`total_chunks = 2`), the first with header `0x80` (sequence bits only,
final flag clear) carrying `data[0:chunk_size]`, the second with header
`0x40` (final flag set) carrying `data[chunk_size : 2*chunk_size]`, with
an `asyncio.sleep(0.1)` after each write. -/
def writeSplitOps (uuid : String) (data : List Nat) : List GattOp :=
  let c := chunkSize data.length
  [GattOp.writeChar uuid (0x80 :: data.take c),
   GattOp.sleepMs 100,
   GattOp.writeChar uuid (0x40 :: ((data.drop c).take c)),
   GattOp.sleepMs 100]

theorem chunkSize_le (n : Nat) : chunkSize n ≤ n := by
  unfold chunkSize
  omega

theorem drop_take_chunk (data : List Nat) :
    (data.drop (chunkSize data.length)).take (chunkSize data.length) =
      data.drop (chunkSize data.length) := by
  apply List.take_of_length_le
  simp only [List.length_drop]
  unfold chunkSize
  omega

/-- C2: for every non-empty payload the split write issues exactly two
GATT writes: the first frame carries the first `⌈n/2⌉` payload bytes with
the final-flag bit (`0x40`) clear in its header, the second carries the
remaining `⌊n/2⌋` bytes with the final-flag bit set, and a 100 ms sleep
separates the two writes. -/
theorem c2_theorem (uuid : String) (data : List Nat) (_h : data ≠ []) :
    writeSplitOps uuid data =
      [GattOp.writeChar uuid (0x80 :: data.take (chunkSize data.length)),
       GattOp.sleepMs 100,
       GattOp.writeChar uuid (0x40 :: data.drop (chunkSize data.length)),
       GattOp.sleepMs 100] ∧
    ((writeSplitOps uuid data).filter isWriteOp).length = 2 ∧
    (data.take (chunkSize data.length)).length = (data.length + 1) / 2 ∧
    (data.drop (chunkSize data.length)).length = data.length / 2 ∧
    Nat.land 0x80 0x40 = 0 ∧
    Nat.land 0x40 0x40 != 0 := by
  refine ⟨?_, ?_, ?_, ?_, by decide, by decide⟩
  · rw [writeSplitOps, drop_take_chunk]
  · simp [writeSplitOps, isWriteOp]
  · simp only [List.length_take]
    have := chunkSize_le data.length
    unfold chunkSize at this ⊢
    omega
  · simp only [List.length_drop]
    unfold chunkSize
    omega

/-- C2 witness: the 8-byte payload `[1,…,8]` is split into two frames of
4 payload bytes each. -/
theorem c2_witness :
    ([1, 2, 3, 4, 5, 6, 7, 8] : List Nat) ≠ [] ∧
    (writeSplitOps CALENDAR_DAY_UUID [1, 2, 3, 4, 5, 6, 7, 8] =
      [GattOp.writeChar CALENDAR_DAY_UUID
        (0x80 :: ([1, 2, 3, 4, 5, 6, 7, 8] : List Nat).take
          (chunkSize ([1, 2, 3, 4, 5, 6, 7, 8] : List Nat).length)),
       GattOp.sleepMs 100,
       GattOp.writeChar CALENDAR_DAY_UUID
        (0x40 :: ([1, 2, 3, 4, 5, 6, 7, 8] : List Nat).drop
          (chunkSize ([1, 2, 3, 4, 5, 6, 7, 8] : List Nat).length)),
       GattOp.sleepMs 100] ∧
     ((writeSplitOps CALENDAR_DAY_UUID [1, 2, 3, 4, 5, 6, 7, 8]).filter
        isWriteOp).length = 2 ∧
     (([1, 2, 3, 4, 5, 6, 7, 8] : List Nat).take
        (chunkSize ([1, 2, 3, 4, 5, 6, 7, 8] : List Nat).length)).length =
          (([1, 2, 3, 4, 5, 6, 7, 8] : List Nat).length + 1) / 2 ∧
     (([1, 2, 3, 4, 5, 6, 7, 8] : List Nat).drop
        (chunkSize ([1, 2, 3, 4, 5, 6, 7, 8] : List Nat).length)).length =
          ([1, 2, 3, 4, 5, 6, 7, 8] : List Nat).length / 2 ∧
     Nat.land 0x80 0x40 = 0 ∧
     Nat.land 0x40 0x40 != 0) :=
  ⟨by decide, c2_theorem CALENDAR_DAY_UUID [1, 2, 3, 4, 5, 6, 7, 8] (by decide)⟩

/-- C3: reassembling the frame sequence `(0x00, "AB")`, `(0x40,
"CD\x00\x00")` yields exactly `"ABCD"` (bytes `[65, 66, 67, 68]`), and in
general the loop appends the bytes after the header, stops on a header
with bit `0x40` set or on an empty frame, and the result is the
accumulated bytes with trailing zero bytes stripped. -/
theorem c3_theorem :
    readSplitCharacteristic [[0x00, 65, 66], [0x40, 67, 68, 0x00, 0x00]] =
      [65, 66, 67, 68] ∧
    (∀ (acc payload : List Nat) (hdr : Nat) (rest : List (List Nat)),
      Nat.land hdr 0x40 ≠ 0 →
      readSplitLoop acc ((hdr :: payload) :: rest) = acc ++ payload) ∧
    (∀ (acc payload : List Nat) (hdr : Nat) (rest : List (List Nat)),
      Nat.land hdr 0x40 = 0 →
      readSplitLoop acc ((hdr :: payload) :: rest) =
        readSplitLoop (acc ++ payload) rest) ∧
    (∀ (acc : List Nat) (rest : List (List Nat)),
      readSplitLoop acc ([] :: rest) = acc) ∧
    (∀ frames : List (List Nat),
      readSplitCharacteristic frames = rstripZeros (readSplitLoop [] frames)) := by
  refine ⟨by decide, ?_, ?_, fun acc rest => rfl, fun frames => rfl⟩
  · intro acc payload hdr rest hflag
    simp [readSplitLoop, hflag]
  · intro acc payload hdr rest hflag
    simp [readSplitLoop, hflag]

/-- C3 witness: the stop-on-final-flag and continue branches of the loop
at concrete frames. -/
theorem c3_witness :
    readSplitLoop [] [[0x40, 1, 2]] = [] ++ [1, 2] ∧
    readSplitLoop [] [[0x00, 1, 2], [0x40, 3]] =
      readSplitLoop ([] ++ [1, 2]) [[0x40, 3]] :=
  ⟨c3_theorem.2.1 [] [1, 2] 0x40 [] (by decide),
   c3_theorem.2.2.1 [] [1, 2] 0x00 [[0x40, 3]] (by decide)⟩

/-! ## Real-time read coordinator (`EnstoRealTimeCoordinator`)

`get_real_time_data` runs entirely under `self._update_lock`, so N
concurrent callers execute as some serial order of calls; the model runs
the calls in sequence, one entry of the `times` list per caller (the
`time.time()` value each observes after acquiring the lock).  The device
is a function from the global read count to the bytes
`read_split_characteristic` returns for that read. -/

structure CoordState where
  /-- Field `self._last_data`: `none` = Python `None`, `some none` = the empty
  dict `{}` a failed parse produces, `some (some r)` = a decoded record. -/
  lastData : Option (Option RealTimeRecord)
  /-- Field `self._last_update`: `none` = Python `None`. -/
  lastUpdate : Option Nat
  deriving Repr, DecidableEq

def initCoordState : CoordState := ⟨none, none⟩

/-- The cache check `self._last_data and self._last_update and
now - self._last_update < max_age_seconds`.  An empty dict and the
timestamp `0` are falsy in Python. -/
def cacheFresh (st : CoordState) (now maxAge : Nat) : Bool :=
  match st.lastData, st.lastUpdate with
  | some (some _), some t => t != 0 && decide (now - t < maxAge)
  | _, _ => false

/-- One `get_real_time_data(max_age_seconds)` call: serve the cache when
fresh, otherwise read the split characteristic once (counted in `reads`)
and, if the payload is non-empty, parse and cache it; an empty payload
returns `None` without touching the cache. -/
def getRealTimeData (dev : Nat → List Nat) (maxAge : Nat) (st : CoordState)
    (reads now : Nat) : CoordState × Nat × Option (Option RealTimeRecord) :=
  if cacheFresh st now maxAge then (st, reads, st.lastData)
  else if (dev reads).length ≠ 0 then
    (⟨some (parseRealTimeIndication (dev reads)), some now⟩, reads + 1,
      some (parseRealTimeIndication (dev reads)))
  else (st, reads + 1, none)

/-- Serial execution of one `get_real_time_data` call per entry of
`times`, threading the coordinator state and the device read count. -/
def runGetCalls (dev : Nat → List Nat) (maxAge : Nat) :
    CoordState → Nat → List Nat →
      CoordState × Nat × List (Option (Option RealTimeRecord))
  | st, reads, [] => (st, reads, [])
  | st, reads, t :: ts =>
    match getRealTimeData dev maxAge st reads t with
    | (st2, reads2, r) =>
      match runGetCalls dev maxAge st2 reads2 ts with
      | (st3, reads3, rs) => (st3, reads3, r :: rs)

theorem parseRealTimeIndication_isSome (data : List Nat)
    (h : 20 ≤ data.length) : ∃ r, parseRealTimeIndication data = some r := by
  unfold parseRealTimeIndication
  rw [if_neg (by omega)]
  exact ⟨_, rfl⟩

theorem runGetCalls_all_cached (dev : Nat → List Nat) (maxAge : Nat)
    (st : CoordState) (reads : Nat) (ts : List Nat)
    (h : ∀ u ∈ ts, cacheFresh st u maxAge = true) :
    runGetCalls dev maxAge st reads ts =
      (st, reads, ts.map (fun _ => st.lastData)) := by
  induction ts with
  | nil => rfl
  | cons u us ih =>
    have hu : cacheFresh st u maxAge = true := h u (by simp)
    have hrest := ih (fun v hv => h v (by simp [hv]))
    simp [runGetCalls, getRealTimeData, hu, hrest]

/-- C4 (counterexample): two serialized `get` calls inside one freshness
window against a device whose reads fail (empty payloads) perform **two**
underlying device reads, not at most one: a failed read does not populate
the cache, so every waiting caller issues its own read. -/
theorem c4_counterexample :
    (runGetCalls (fun _ => []) 25 initCoordState 0 [1, 2]).2.1 = 2 ∧
    ¬ (runGetCalls (fun _ => []) 25 initCoordState 0 [1, 2]).2.1 ≤ 1 := by
  decide

/-- C4 (amended): if the first read returns a decodable (≥ 20 byte)
payload, then any number of further `get` calls whose observed times stay
within the 25 s freshness window of the first trigger exactly one
underlying device read in total, and every caller receives the same
decoded record. -/
theorem c4_amended (dev : Nat → List Nat) (t : Nat) (ts : List Nat)
    (ht : 0 < t) (hraw : 20 ≤ (dev 0).length)
    (hts : ∀ u ∈ ts, u - t < 25) :
    (runGetCalls dev 25 initCoordState 0 (t :: ts)).2.1 = 1 ∧
    (runGetCalls dev 25 initCoordState 0 (t :: ts)).2.2 =
      (t :: ts).map (fun _ => some (parseRealTimeIndication (dev 0))) := by
  obtain ⟨rec, hrec⟩ := parseRealTimeIndication_isSome (dev 0) hraw
  have hfirst :
      getRealTimeData dev 25 initCoordState 0 t =
        (⟨some (parseRealTimeIndication (dev 0)), some t⟩, 1,
          some (parseRealTimeIndication (dev 0))) := by
    have hne : (dev 0).length ≠ 0 := by omega
    simp [getRealTimeData, cacheFresh, initCoordState, hne]
  have hrest :
      runGetCalls dev 25 ⟨some (parseRealTimeIndication (dev 0)), some t⟩ 1 ts =
        (⟨some (parseRealTimeIndication (dev 0)), some t⟩, 1,
          ts.map (fun _ => some (parseRealTimeIndication (dev 0)))) := by
    have := runGetCalls_all_cached dev 25
      ⟨some (parseRealTimeIndication (dev 0)), some t⟩ 1 ts
      (fun u hu => by
        have ht' : t ≠ 0 := by omega
        have hu' := hts u hu
        simp [cacheFresh, hrec, ht', hu'])
    simpa using this
  constructor <;> simp [runGetCalls, hfirst, hrest]

/-- C4 witness: three callers at times 1, 2, 3 against a device whose
first read returns the 20-byte scenario payload: one device read, all
three callers get the same decoded record. -/
theorem c4_amended_witness :
    (runGetCalls (fun _ => c1PayloadBytes) 25 initCoordState 0 [1, 2, 3]).2.1 = 1 ∧
    (runGetCalls (fun _ => c1PayloadBytes) 25 initCoordState 0 [1, 2, 3]).2.2 =
      ([1, 2, 3] : List Nat).map
        (fun _ => some (parseRealTimeIndication c1PayloadBytes)) :=
  c4_amended (fun _ => c1PayloadBytes) 1 [2, 3] (by decide) (by decide)
    (by decide)

/-! ## Datetimes

`datetime.datetime` values, to minute precision (the protocol never uses
seconds).  Python datetime comparison is lexicographic on the fields; on
valid dates this agrees with comparison of the linearisation
`dtTotalMinutes` below, which is what the model uses.  `timedelta`
subtraction acts on the linearisation. -/

structure PyDateTime where
  year : Nat
  month : Nat
  day : Nat
  hour : Nat
  minute : Nat
  deriving Repr, DecidableEq

def isLeapYear (y : Nat) : Bool :=
  y % 4 == 0 && (y % 100 != 0 || y % 400 == 0)

def daysInMonth (y m : Nat) : Nat :=
  if m = 2 then (if isLeapYear y then 29 else 28)
  else if m = 4 ∨ m = 6 ∨ m = 9 ∨ m = 11 then 30
  else 31

/-- Days in year `y` before the first of month `m`. -/
def daysBeforeMonth (y m : Nat) : Nat :=
  ((List.range (m - 1)).map (fun i => daysInMonth y (i + 1))).sum

/-- Day count of the proleptic Gregorian calendar (day 0 = 0001-01-01),
the ordinal underlying `datetime` arithmetic. -/
def daysFromCivil (y m d : Nat) : Nat :=
  (y - 1) * 365 + (y - 1) / 4 - (y - 1) / 100 + (y - 1) / 400 +
    daysBeforeMonth y m + (d - 1)

/-- The value `datetime(y, m, d, h)` as an absolute hour count. -/
def civilHours (y m d h : Nat) : Nat := daysFromCivil y m d * 24 + h

/-- The argument-validity check `datetime.__init__` performs (raising
`ValueError` on failure). -/
def validDate (y m d h : Nat) : Bool :=
  1 ≤ m && m ≤ 12 && 1 ≤ d && d ≤ daysInMonth y m && h ≤ 23

def dtTotalMinutes (dt : PyDateTime) : Nat :=
  civilHours dt.year dt.month dt.day dt.hour * 60 + dt.minute

/-! ## Vacation window (`write_vacation_time` and the vacation
datetime entity of `datetime.py`) -/

/-- Embeds `write_vacation_time(time_from, time_to, offset_temperature,
offset_percentage, enabled)`.

The preceding `read_vacation_time` supplies `currentActive` (the device's
read-only "active" flag, preserved into byte 14).  `dt_util.as_local` is
modelled as the identity (host configured to the UTC timezone), so the
wall-clock fields written are the fields of the arguments.  The function
validates the offsets and the years, builds the 15-byte record and writes
it; **it performs no comparison of `time_from` against `time_to`**. -/
def writeVacationTime (currentActive : Bool) (timeFrom timeTo : PyDateTime)
    (offsetTemperature : Rat) (offsetPercentage : Int) (enabled : Bool) :
    Bool × List GattOp :=
  if ¬(-20 ≤ offsetTemperature ∧ offsetTemperature ≤ 20) then (false, [])
  else if ¬(-100 ≤ offsetPercentage ∧ offsetPercentage ≤ 100) then (false, [])
  else if ¬(2000 ≤ timeFrom.year ∧ timeFrom.year ≤ 2255) then (false, [])
  else if ¬(2000 ≤ timeTo.year ∧ timeTo.year ≤ 2255) then (false, [])
  else
    (true,
      [GattOp.writeChar VACATION_TIME_UUID
        ([timeFrom.year - 2000, timeFrom.month, timeFrom.day,
          timeFrom.hour, timeFrom.minute,
          timeTo.year - 2000, timeTo.month, timeTo.day,
          timeTo.hour, timeTo.minute] ++
         toLE2s (pyTrunc (offsetTemperature * 100)) ++
         [toI8 offsetPercentage,
          if enabled then 1 else 0,
          if currentActive then 1 else 0])])

/-- The result of `read_vacation_time`, as used by the vacation datetime
entity. -/
structure VacationSettings where
  timeFrom : PyDateTime
  timeTo : PyDateTime
  offsetTemperature : Rat
  offsetPercentage : Int
  enabled : Bool
  active : Bool

/-- Embeds `EnstoVacationDateTimeEntity.async_set_value` (`datetime.py`), GATT
effects only: merge the edited bound with the other bound from the
current settings, reject with **no write** when start is not strictly
before end, otherwise call `write_vacation_time` (with the offset values
the entity looked up, here passed in directly). -/
def vacationSetValueOps (current : VacationSettings) (isStart : Bool)
    (value : PyDateTime) (tempValue : Rat) (powerValue : Int) : List GattOp :=
  let tf := if isStart then value else current.timeFrom
  let tt := if isStart then current.timeTo else value
  if dtTotalMinutes tt ≤ dtTotalMinutes tf then []
  else (writeVacationTime current.active tf tt tempValue powerValue
    current.enabled).2

def c5DateTime : PyDateTime := ⟨2025, 1, 1, 0, 0⟩

/-- C5 (counterexample): `write_vacation_time` called with
`time_from = time_to = 2025-01-01 00:00` performs the GATT write of the
vacation record anyway — the manager-level write operation contains no
time-order check at all. -/
theorem c5_counterexample :
    writeVacationTime false c5DateTime c5DateTime 0 0 true =
      (true,
        [GattOp.writeChar VACATION_TIME_UUID
          [25, 1, 1, 0, 0, 25, 1, 1, 0, 0, 0, 0, 0, 1, 0]]) := by
  simp [writeVacationTime, c5DateTime, toLE2s, toLE2, toI8, pyTrunc]
  norm_num

/-- C5 (amended): the strict time-order check lives one layer up, in the
vacation datetime entity's `async_set_value`: when the merged start time
is not strictly before the merged end time the entity performs no GATT
write at all; `write_vacation_time` itself writes the record whenever the
offset and year validations pass, regardless of the order of the two
times. -/
theorem c5_amended (current : VacationSettings) (isStart : Bool)
    (value : PyDateTime) (tempValue : Rat) (powerValue : Int)
    (active enabled : Bool) (timeFrom timeTo : PyDateTime)
    (offT : Rat) (offP : Int)
    (horder :
      dtTotalMinutes (if isStart then current.timeTo else value) ≤
        dtTotalMinutes (if isStart then value else current.timeFrom))
    (h1 : -20 ≤ offT ∧ offT ≤ 20) (h2 : -100 ≤ offP ∧ offP ≤ 100)
    (h3 : 2000 ≤ timeFrom.year ∧ timeFrom.year ≤ 2255)
    (h4 : 2000 ≤ timeTo.year ∧ timeTo.year ≤ 2255) :
    vacationSetValueOps current isStart value tempValue powerValue = [] ∧
    (writeVacationTime active timeFrom timeTo offT offP enabled).1 = true ∧
    (writeVacationTime active timeFrom timeTo offT offP enabled).2 ≠ [] := by
  refine ⟨?_, ?_, ?_⟩
  · simp only [vacationSetValueOps]
    rw [if_pos horder]
  · simp [writeVacationTime, h1.1, h1.2, h2.1, h2.2, h3.1, h3.2, h4.1, h4.2]
  · simp [writeVacationTime, h1.1, h1.2, h2.1, h2.2, h3.1, h3.2, h4.1, h4.2]

/-- C5 witness: an entity-level edit that would make start = end performs
no write; a manager-level write with equal times still writes. -/
theorem c5_amended_witness :
    (dtTotalMinutes (if true then (⟨c5DateTime, c5DateTime, 0, 0, false,
        false⟩ : VacationSettings).timeTo else c5DateTime) ≤
      dtTotalMinutes (if true then c5DateTime else (⟨c5DateTime, c5DateTime,
        0, 0, false, false⟩ : VacationSettings).timeFrom)) ∧
    (vacationSetValueOps ⟨c5DateTime, c5DateTime, 0, 0, false, false⟩ true
        c5DateTime 0 0 = [] ∧
      (writeVacationTime false c5DateTime c5DateTime 0 0 false).1 = true ∧
      (writeVacationTime false c5DateTime c5DateTime 0 0 false).2 ≠ []) :=
  ⟨by decide,
   c5_amended ⟨c5DateTime, c5DateTime, 0, 0, false, false⟩ true c5DateTime
     0 0 false false c5DateTime c5DateTime 0 0 (by decide)
     (by norm_num) (by norm_num) (by decide) (by decide)⟩

/-! ## Calendar day write (`write_calendar_day`) -/

/-- One calendar program dict (keys `start_hour`, `start_minute`,
`end_hour`, `end_minute`, `temp_offset`, `power_offset`, `enabled`). -/
structure CalendarProgram where
  startHour : Nat
  startMinute : Nat
  endHour : Nat
  endMinute : Nat
  tempOffset : Rat
  powerOffset : Int
  enabled : Bool
  deriving Repr, DecidableEq

/-- The 8 bytes one program slot receives inside the 49-byte record.
`none` models the `ValueError`/`OverflowError` a bytearray assignment or
`int.to_bytes` raises on an out-of-range field (caught by the function's
blanket except, which returns `False` before any GATT write). -/
def encodeProgram (p : CalendarProgram) : Option (List Nat) :=
  if p.startHour ≤ 255 ∧ p.startMinute ≤ 255 ∧ p.endHour ≤ 255 ∧
      p.endMinute ≤ 255 ∧
      -32768 ≤ pyTrunc (p.tempOffset * 100) ∧
      pyTrunc (p.tempOffset * 100) ≤ 32767 ∧
      -128 ≤ p.powerOffset ∧ p.powerOffset ≤ 127 then
    some ([p.startHour, p.startMinute, p.endHour, p.endMinute] ++
      toLE2s (pyTrunc (p.tempOffset * 100)) ++
      [toI8 p.powerOffset, if p.enabled then 1 else 0])
  else none

/-- Slot `i` of the record: the encoded program when `i <
len(programs)`, otherwise eight zero bytes (empty program, disabled). -/
def slotBytes (programs : List CalendarProgram) (i : Nat) :
    Option (List Nat) :=
  match programs.get? i with
  | some p => encodeProgram p
  | none => some (List.replicate 8 0)

/-- The 49-byte record `write_calendar_day` builds: the day byte followed
by the six fixed-size program slots. -/
def buildCalendarData (day : Nat) (programs : List CalendarProgram) :
    Option (List Nat) :=
  match slotBytes programs 0, slotBytes programs 1, slotBytes programs 2,
      slotBytes programs 3, slotBytes programs 4, slotBytes programs 5 with
  | some s0, some s1, some s2, some s3, some s4, some s5 =>
    some (day :: (s0 ++ s1 ++ s2 ++ s3 ++ s4 ++ s5))
  | _, _, _, _, _, _ => none

/-- Embeds `write_calendar_day(day, programs)`: day must be 1–7 and at most 6
programs are accepted; the record is built fully before any GATT traffic;
then the day number is written to the calendar control characteristic,
the record is written with the split protocol, and after a 200 ms settle
delay the day number `0` is written to the control characteristic as the
save-to-flash signal. -/
def writeCalendarDay (connected : Bool) (day : Nat)
    (programs : List CalendarProgram) : Bool × List GattOp :=
  if ¬connected then (false, [])
  else if ¬(1 ≤ day ∧ day ≤ 7) then (false, [])
  else if 6 < programs.length then (false, [])
  else
    match buildCalendarData day programs with
    | none => (false, [])
    | some data =>
      (true,
        GattOp.writeChar CALENDAR_CONTROL_UUID [day] ::
          writeSplitOps CALENDAR_DAY_UUID data ++
          [GattOp.sleepMs 200, GattOp.writeChar CALENDAR_CONTROL_UUID [0]])

theorem encodeProgram_length (p : CalendarProgram) (l : List Nat)
    (h : encodeProgram p = some l) : l.length = 8 := by
  unfold encodeProgram at h
  by_cases hc : p.startHour ≤ 255 ∧ p.startMinute ≤ 255 ∧ p.endHour ≤ 255 ∧
      p.endMinute ≤ 255 ∧
      -32768 ≤ pyTrunc (p.tempOffset * 100) ∧
      pyTrunc (p.tempOffset * 100) ≤ 32767 ∧
      -128 ≤ p.powerOffset ∧ p.powerOffset ≤ 127
  · rw [if_pos hc] at h
    cases h
    simp [toLE2s, toLE2]
  · rw [if_neg hc] at h
    cases h

theorem slotBytes_length (programs : List CalendarProgram) (i : Nat)
    (l : List Nat) (h : slotBytes programs i = some l) : l.length = 8 := by
  unfold slotBytes at h
  cases hp : programs.get? i with
  | none => rw [hp] at h; cases h; simp
  | some p => rw [hp] at h; exact encodeProgram_length p l h

theorem slotBytes_isSome (programs : List CalendarProgram) (i : Nat)
    (henc : ∀ p ∈ programs, (encodeProgram p).isSome) :
    (slotBytes programs i).isSome := by
  unfold slotBytes
  cases hp : programs.get? i with
  | none => simp
  | some p => exact henc p (List.get?_mem hp)

/-- C6: for a valid day 1–7 and at most six in-range programs,
`write_calendar_day` performs, in order: a write of the day byte to the
calendar control characteristic, the two-frame split write of the
49-byte record — the day byte followed by six 8-byte slots, the slots
beyond the given programs all zeros (disabled) — and finally a write of
byte 0 to the control characteristic as the commit-to-flash signal. -/
theorem c6_theorem (day : Nat) (programs : List CalendarProgram)
    (hday : 1 ≤ day ∧ day ≤ 7) (hlen : programs.length ≤ 6)
    (henc : ∀ p ∈ programs, (encodeProgram p).isSome) :
    ∃ s0 s1 s2 s3 s4 s5 : List Nat,
      slotBytes programs 0 = some s0 ∧ slotBytes programs 1 = some s1 ∧
      slotBytes programs 2 = some s2 ∧ slotBytes programs 3 = some s3 ∧
      slotBytes programs 4 = some s4 ∧ slotBytes programs 5 = some s5 ∧
      s0.length = 8 ∧ s1.length = 8 ∧ s2.length = 8 ∧ s3.length = 8 ∧
      s4.length = 8 ∧ s5.length = 8 ∧
      buildCalendarData day programs =
        some (day :: (s0 ++ s1 ++ s2 ++ s3 ++ s4 ++ s5)) ∧
      (day :: (s0 ++ s1 ++ s2 ++ s3 ++ s4 ++ s5)).length = 49 ∧
      (∀ i, programs.length ≤ i →
        slotBytes programs i = some (List.replicate 8 0)) ∧
      writeCalendarDay true day programs =
        (true,
          GattOp.writeChar CALENDAR_CONTROL_UUID [day] ::
            writeSplitOps CALENDAR_DAY_UUID
              (day :: (s0 ++ s1 ++ s2 ++ s3 ++ s4 ++ s5)) ++
            [GattOp.sleepMs 200,
             GattOp.writeChar CALENDAR_CONTROL_UUID [0]]) := by
  obtain ⟨s0, h0⟩ := Option.isSome_iff_exists.mp (slotBytes_isSome programs 0 henc)
  obtain ⟨s1, h1⟩ := Option.isSome_iff_exists.mp (slotBytes_isSome programs 1 henc)
  obtain ⟨s2, h2⟩ := Option.isSome_iff_exists.mp (slotBytes_isSome programs 2 henc)
  obtain ⟨s3, h3⟩ := Option.isSome_iff_exists.mp (slotBytes_isSome programs 3 henc)
  obtain ⟨s4, h4⟩ := Option.isSome_iff_exists.mp (slotBytes_isSome programs 4 henc)
  obtain ⟨s5, h5⟩ := Option.isSome_iff_exists.mp (slotBytes_isSome programs 5 henc)
  have hl0 := slotBytes_length programs 0 s0 h0
  have hl1 := slotBytes_length programs 1 s1 h1
  have hl2 := slotBytes_length programs 2 s2 h2
  have hl3 := slotBytes_length programs 3 s3 h3
  have hl4 := slotBytes_length programs 4 s4 h4
  have hl5 := slotBytes_length programs 5 s5 h5
  have hbuild : buildCalendarData day programs =
      some (day :: (s0 ++ s1 ++ s2 ++ s3 ++ s4 ++ s5)) := by
    unfold buildCalendarData
    rw [h0, h1, h2, h3, h4, h5]
  refine ⟨s0, s1, s2, s3, s4, s5, h0, h1, h2, h3, h4, h5,
    hl0, hl1, hl2, hl3, hl4, hl5, hbuild, ?_, ?_, ?_⟩
  · simp [hl0, hl1, hl2, hl3, hl4, hl5]
  · intro i hi
    unfold slotBytes
    rw [List.get?_eq_none.mpr hi]
  · unfold writeCalendarDay
    rw [if_neg (by simp), if_neg (by omega), if_neg (by omega), hbuild]

/-- C6 witness: day 2 with one program (06:00–08:30, +2.0 °C, −10 %,
enabled). -/
theorem c6_witness :
    (1 ≤ 2 ∧ 2 ≤ 7) ∧
    ([(⟨6, 0, 8, 30, 2, -10, true⟩ : CalendarProgram)].length ≤ 6) ∧
    (∃ s0 s1 s2 s3 s4 s5 : List Nat,
      slotBytes [⟨6, 0, 8, 30, 2, -10, true⟩] 0 = some s0 ∧
      slotBytes [⟨6, 0, 8, 30, 2, -10, true⟩] 1 = some s1 ∧
      slotBytes [⟨6, 0, 8, 30, 2, -10, true⟩] 2 = some s2 ∧
      slotBytes [⟨6, 0, 8, 30, 2, -10, true⟩] 3 = some s3 ∧
      slotBytes [⟨6, 0, 8, 30, 2, -10, true⟩] 4 = some s4 ∧
      slotBytes [⟨6, 0, 8, 30, 2, -10, true⟩] 5 = some s5 ∧
      s0.length = 8 ∧ s1.length = 8 ∧ s2.length = 8 ∧ s3.length = 8 ∧
      s4.length = 8 ∧ s5.length = 8 ∧
      buildCalendarData 2 [⟨6, 0, 8, 30, 2, -10, true⟩] =
        some (2 :: (s0 ++ s1 ++ s2 ++ s3 ++ s4 ++ s5)) ∧
      (2 :: (s0 ++ s1 ++ s2 ++ s3 ++ s4 ++ s5)).length = 49 ∧
      (∀ i, [(⟨6, 0, 8, 30, 2, -10, true⟩ : CalendarProgram)].length ≤ i →
        slotBytes [⟨6, 0, 8, 30, 2, -10, true⟩] i =
          some (List.replicate 8 0)) ∧
      writeCalendarDay true 2 [⟨6, 0, 8, 30, 2, -10, true⟩] =
        (true,
          GattOp.writeChar CALENDAR_CONTROL_UUID [2] ::
            writeSplitOps CALENDAR_DAY_UUID
              (2 :: (s0 ++ s1 ++ s2 ++ s3 ++ s4 ++ s5)) ++
            [GattOp.sleepMs 200,
             GattOp.writeChar CALENDAR_CONTROL_UUID [0]])) :=
  ⟨by decide, by decide,
   c6_theorem 2 [⟨6, 0, 8, 30, 2, -10, true⟩] (by decide) (by decide)
     (by
       intro p hp
       simp only [List.mem_singleton] at hp
       subst hp
       simp [encodeProgram, pyTrunc]
       norm_num)⟩

/-! ## Real-time power-consumption history (`read_power_consumption`) -/

structure PowerSample where
  timestamp : Int
  ratioPct : Nat
  deriving Repr, DecidableEq

/-- Embeds `read_power_consumption`, applied to the already reassembled split
payload.  The payload is a 4-byte wall-clock header (hour, day, month,
year−2000) followed by `(delta_hours, ratio)` sample pairs.  The loop
runs `for i in range(24)` — despite its own "25 hours of data" comment —
and skips pairs whose ratio byte is `0xFF`.  A produced sample's
timestamp is `datetime(2000+year, month, day, hour) −
timedelta(hours=delta)`, modelled on the absolute hour count.  `none`
captures every path through the blanket `except`: a payload shorter than
52 bytes (IndexError at some `data[offset]`), an invalid header date
(ValueError from `datetime`), and no sample produced at all (NameError:
the `timestamp` name in the return expression was never bound). -/
def readPowerConsumption (data : List Nat) : Option (Int × List PowerSample) :=
  if data.length = 0 then none
  else if data.length < 4 then none
  else if data.length < 52 then none
  else
    let hour := byteAt data 0
    let day := byteAt data 1
    let month := byteAt data 2
    let year := byteAt data 3
    let samples := (List.range 24).filterMap (fun i =>
      if byteAt data (5 + 2 * i) == 0xff then none
      else
        some (⟨(civilHours (2000 + year) month day hour : Int) -
            byteAt data (4 + 2 * i),
          byteAt data (5 + 2 * i)⟩ : PowerSample))
    if samples.isEmpty then none
    else if ¬ validDate (2000 + year) month day hour then none
    else some (((samples.getLast?).getD ⟨0, 0⟩).timestamp, samples)

/-- A full history payload: header 2024-01-01 00:00 followed by 25 sample
pairs, pair `i` carrying delta `i` hours and ratio 50 % — all 25 ratios
are set. -/
def c7Payload : List Nat :=
  [0, 1, 1, 24] ++ ((List.range 25).map (fun i => [i, 50])).flatten

/-- C7 (code bug): on a payload whose 25 sample pairs are all set, the
decoder produces only 24 samples — the `for i in range(24)` loop never
examines the 25th pair (bytes 52–53), contradicting the code's own
"25 hours of data" comment.  The samples it does produce have the
claimed timestamps `header − delta` hours. -/
theorem c7_code_bug :
    c7Payload.length = 54 ∧
    (readPowerConsumption c7Payload).map (fun r => r.2.length) = some 24 ∧
    (readPowerConsumption c7Payload).map (fun r => r.2.length) ≠ some 25 ∧
    (readPowerConsumption c7Payload).map
        (fun r => r.2.map PowerSample.timestamp) =
      some ((List.range 24).map (fun i => (civilHours 2024 1 1 0 : Int) - i)) ∧
    (readPowerConsumption c7Payload).map
        (fun r => r.2.map (fun s => s.ratioPct)) =
      some (List.replicate 24 50) := by
  decide

/-! ## Session connect (`EnstoThermostatManager.connect`)

`connect` runs its whole body between `self._connect_lock.acquire()` and
`release()`, so concurrent calls execute in some serial order; the model
runs calls in sequence.  The environment collects the results of the
external collaborators one call observes. -/

structure ConnectEnv where
  /-- Whether `bluetooth.async_ble_device_from_address` found the device. -/
  deviceFound : Bool
  /-- Whether `establish_connection` succeeded. -/
  establishOk : Bool
  /-- Whether `client.pair()` succeeded. -/
  pairOk : Bool
  /-- Result of `read_device_info()`: the factory-reset id persisted for this
  address, if any. -/
  storedId : Option Nat
  /-- Result of `read_factory_reset_id()`: the id the device reports (`none` =
  the read failed or returned a falsy value). -/
  deviceFactoryId : Option Nat
  /-- Whether `write_factory_reset_id` succeeded. -/
  authWriteOk : Bool
  deriving Repr, DecidableEq

inductive ConnectOutcome where
  | ok
  | error (msg : String)
  deriving Repr, DecidableEq

/-- The manager state `connect` touches: whether `self.client` holds a
live connected transport handle (`None`/disconnected otherwise). -/
structure MgrState where
  clientConnected : Bool
  deriving Repr, DecidableEq

/-- The call `await self._connect_lock.acquire()` on an `asyncio.Lock` *waits*
until the lock is free and then returns `True` — it can never return
`False`, so the `else: raise Exception("Already connecting")` branch of
`connect` is unreachable. -/
def asyncioLockAcquire : Bool := true

/-- Python `factory_reset_id.to_bytes(4, byteorder="little")`. -/
def toLE4 (v : Nat) : List Nat :=
  [v % 256, v / 256 % 256, v / 65536 % 256, v / 16777216 % 256]

/-- One `connect()` call, parameterised by what the lock acquire
returned.  Under the lock: return immediately when already connected;
otherwise discover, establish, pair, resolve the authentication id
(stored id, else the device's factory-reset id, persisting it), write it
back, and read model number and device name (whose failures do not abort).
On any failure `self.client` is cleared.  With `acquired = false` the
dead "Already connecting" branch would raise. -/
def connectCall (acquired : Bool) (st : MgrState) (env : ConnectEnv) :
    MgrState × ConnectOutcome × List GattOp :=
  if acquired then
    if st.clientConnected then (st, ConnectOutcome.ok, [])
    else if ¬env.deviceFound then
      (⟨false⟩, ConnectOutcome.error "Device not found", [])
    else if ¬env.establishOk then
      (⟨false⟩, ConnectOutcome.error "Connect failed",
        [GattOp.establishConnection])
    else if ¬env.pairOk then
      (⟨false⟩, ConnectOutcome.error "Pairing failed",
        [GattOp.establishConnection, GattOp.pairDevice])
    else
      match env.storedId with
      | some sid =>
        if env.authWriteOk then
          (⟨true⟩, ConnectOutcome.ok,
            [GattOp.establishConnection, GattOp.pairDevice,
             GattOp.writeChar FACTORY_RESET_ID_UUID (toLE4 sid),
             GattOp.readChar MODEL_NUMBER_UUID,
             GattOp.readChar DEVICE_NAME_UUID])
        else
          (⟨false⟩, ConnectOutcome.error "Transport error",
            [GattOp.establishConnection, GattOp.pairDevice])
      | none =>
        match env.deviceFactoryId with
        | some fid =>
          if env.authWriteOk then
            (⟨true⟩, ConnectOutcome.ok,
              [GattOp.establishConnection, GattOp.pairDevice,
               GattOp.readChar FACTORY_RESET_ID_UUID,
               GattOp.writeChar FACTORY_RESET_ID_UUID (toLE4 fid),
               GattOp.readChar MODEL_NUMBER_UUID,
               GattOp.readChar DEVICE_NAME_UUID])
          else
            (⟨false⟩, ConnectOutcome.error "Transport error",
              [GattOp.establishConnection, GattOp.pairDevice,
               GattOp.readChar FACTORY_RESET_ID_UUID])
        | none =>
          (⟨false⟩,
            ConnectOutcome.error "Could not get Factory Reset ID from device",
            [GattOp.establishConnection, GattOp.pairDevice,
             GattOp.readChar FACTORY_RESET_ID_UUID])
  else (st, ConnectOutcome.error "Already connecting", [])

/-- Two concurrent `connect()` calls on a freshly created manager: the
lock serialises them, and each call's acquire returns
`asyncioLockAcquire`. -/
def twoConnectCalls (env : ConnectEnv) :
    (ConnectOutcome × ConnectOutcome) × List GattOp :=
  match connectCall asyncioLockAcquire ⟨false⟩ env with
  | (st1, o1, ops1) =>
    match connectCall asyncioLockAcquire st1 env with
    | (_, o2, ops2) => ((o1, o2), ops1 ++ ops2)

/-- An environment where the first connect attempt succeeds using a
stored authentication id. -/
def c8Env : ConnectEnv := ⟨true, true, true, some 1234, none, true⟩

/-! ## Reconnect-on-demand (`ensure_connection` and the plain
characteristic operations) -/

/-- Embeds `ensure_connection`: a connect attempt happens exactly when
`self.client` is absent or not connected. -/
def ensureConnectionOps (connected : Bool) : List GattOp :=
  if connected then [] else [GattOp.connectAttempt]

/-- The function `read_split_characteristic` **does** begin with
`await self.ensure_connection()`; here only the traffic shape matters, so
the read loop is abbreviated to its first characteristic read. -/
def readSplitConnectOps (connected : Bool) (uuid : String) : List GattOp :=
  ensureConnectionOps connected ++ [GattOp.readChar uuid]

/-- The function `write_split_characteristic` also begins with `ensure_connection`. -/
def writeSplitConnectOps (connected : Bool) (uuid : String)
    (data : List Nat) : List GattOp :=
  ensureConnectionOps connected ++ writeSplitOps uuid data

structure BoostRecord where
  enabled : Bool
  offsetDegrees : Rat
  offsetPercentage : Int
  setpointMinutes : Nat
  remainingMinutes : Nat
  deriving Repr, DecidableEq

/-- The parsing part of `read_boost` (raises IndexError, caught into
`None`, on fewer than 8 bytes). -/
def parseBoost (raw : List Nat) : Option BoostRecord :=
  if raw.length < 8 then none
  else
    some
      { enabled := byteAt raw 0 != 0
        offsetDegrees := (fromLE2s (byteAt raw 1) (byteAt raw 2) : Rat) / 100
        offsetPercentage := fromI8 (byteAt raw 3)
        setpointMinutes := fromLE2 (byteAt raw 4) (byteAt raw 5)
        remainingMinutes := fromLE2 (byteAt raw 6) (byteAt raw 7) }

/-- Embeds `read_boost`: **no** `ensure_connection` — when `self.client` is
absent or not connected it logs "Device not connected." and returns
`None` immediately, with no GATT traffic and no reconnect attempt. -/
def readBoost (connected : Bool) (raw : List Nat) :
    Option BoostRecord × List GattOp :=
  if ¬connected then (none, [])
  else (parseBoost raw, [GattOp.readChar BOOST_UUID])

/-! ## Force control (`write_force_control`)

`EXTERNAL_CONTROL_MODES` is imported from `const.py`, but its definition
is absent from the sources at hand, so the set of known external-control
mode keys is a parameter (`knownModes`) of the model; no theorem below
depends on its contents. -/

def clampRat (lo hi q : Rat) : Rat := max lo (min hi q)

/-- Python `int(max(5.0, min(35.0, temperature)) * 10)` — the mode-5 absolute
temperature, clamped into 5.0–35.0 °C and scaled by 10. -/
def forceControlTempValue (t : Rat) : Nat :=
  Int.toNat (pyTrunc (clampRat 5 35 t * 10))

/-- Python `int(max(-20.0, min(20.0, temperature_offset)) * 10)` — the mode-6
offset, clamped into −20.0–20.0 °C and scaled by 10. -/
def forceControlOffsetValue (toff : Rat) : Int :=
  pyTrunc (clampRat (-20) 20 toff * 10)

/-- The buffer written back: the bytes read, with bytes 8–9 replaced by
the little-endian mode-5 temperature, bytes 12–13 by the little-endian
two's-complement mode-6 offset, and byte 17 by the requested mode when it
is a known external-control mode. -/
def forceControlBuffer (knownModes : List Nat) (current : List Nat)
    (mode : Nat) (t toff : Rat) : List Nat :=
  let tv := forceControlTempValue t
  let ov := Int.toNat (Int.emod (forceControlOffsetValue toff) 65536)
  let d2 :=
    (((current.set 8 (tv % 256)).set 9 (tv / 256 % 256)).set 12
        (ov % 256)).set 13 (ov / 256 % 256)
  if mode ∈ knownModes then d2.set 17 mode else d2

/-- Embeds `write_force_control(mode, temperature, temperature_offset)`:
`ensure_connection`, then read the current force-control record; abandon
with `False` when it is empty or shorter than 19 bytes (legacy 1-byte
format); otherwise write back the record updated as in
`forceControlBuffer`. -/
def writeForceControl (knownModes : List Nat)
    (wasConnected connectedNow : Bool) (current : List Nat) (mode : Nat)
    (t toff : Rat) : Bool × List GattOp :=
  let pre := ensureConnectionOps wasConnected
  if ¬connectedNow then (false, pre)
  else if current.length = 0 then
    (false, pre ++ [GattOp.readChar FORCE_CONTROL_UUID])
  else if current.length < 19 then
    (false, pre ++ [GattOp.readChar FORCE_CONTROL_UUID])
  else
    (true,
      pre ++ [GattOp.readChar FORCE_CONTROL_UUID,
        GattOp.writeChar FORCE_CONTROL_UUID
          (forceControlBuffer knownModes current mode t toff)])

/-! ## Bounds of the truncated, clamped force-control fields -/

theorem pyTrunc_eq_floor (q : Rat) (h : 0 ≤ q) : pyTrunc q = ⌊q⌋ := by
  rw [pyTrunc, if_pos h, Rat.floor_def]

theorem pyTrunc_eq_neg_floor_neg (q : Rat) (h : ¬ 0 ≤ q) :
    pyTrunc q = -⌊-q⌋ := by
  rw [pyTrunc, if_neg h, Rat.floor_def]

theorem pyTrunc_bounds_pos (lo hi : Int) (q : Rat) (hlo : 0 ≤ lo)
    (h1 : (lo : Rat) ≤ q) (h2 : q ≤ (hi : Rat)) :
    lo ≤ pyTrunc q ∧ pyTrunc q ≤ hi := by
  have hq : 0 ≤ q := le_trans (by exact_mod_cast hlo) h1
  rw [pyTrunc_eq_floor q hq]
  exact ⟨Int.le_floor.mpr h1,
    le_trans (Int.floor_mono h2) (le_of_eq (Int.floor_intCast hi))⟩

theorem pyTrunc_abs_bounds (a : Int) (q : Rat) (ha : 0 ≤ a)
    (h1 : -(a : Rat) ≤ q) (h2 : q ≤ (a : Rat)) :
    -a ≤ pyTrunc q ∧ pyTrunc q ≤ a := by
  by_cases hq : 0 ≤ q
  · rw [pyTrunc_eq_floor q hq]
    have hnn : (0 : Int) ≤ ⌊q⌋ := Int.floor_nonneg.mpr hq
    have hub : ⌊q⌋ ≤ a :=
      le_trans (Int.floor_mono h2) (le_of_eq (Int.floor_intCast a))
    omega
  · rw [pyTrunc_eq_neg_floor_neg q hq]
    have hq' : (0 : Rat) ≤ -q := by push_neg at hq; linarith
    have h1' : -q ≤ (a : Rat) := by linarith
    have hnn : (0 : Int) ≤ ⌊-q⌋ := Int.floor_nonneg.mpr hq'
    have hub : ⌊-q⌋ ≤ a :=
      le_trans (Int.floor_mono h1') (le_of_eq (Int.floor_intCast a))
    omega

theorem forceControlTempValue_bounds (t : Rat) :
    50 ≤ forceControlTempValue t ∧ forceControlTempValue t ≤ 350 := by
  have hcl : (5 : Rat) ≤ clampRat 5 35 t := le_max_left _ _
  have hch : clampRat 5 35 t ≤ 35 := max_le (by norm_num) (min_le_left _ _)
  have h1 : ((50 : Int) : Rat) ≤ clampRat 5 35 t * 10 := by push_cast; linarith
  have h2 : clampRat 5 35 t * 10 ≤ ((350 : Int) : Rat) := by push_cast; linarith
  obtain ⟨hl, hh⟩ := pyTrunc_bounds_pos 50 350 _ (by norm_num) h1 h2
  unfold forceControlTempValue
  omega

theorem forceControlOffsetValue_bounds (toff : Rat) :
    -200 ≤ forceControlOffsetValue toff ∧ forceControlOffsetValue toff ≤ 200 := by
  have hcl : (-20 : Rat) ≤ clampRat (-20) 20 toff := le_max_left _ _
  have hch : clampRat (-20) 20 toff ≤ 20 :=
    max_le (by norm_num) (min_le_left _ _)
  have h1 : -((200 : Int) : Rat) ≤ clampRat (-20) 20 toff * 10 := by
    push_cast; linarith
  have h2 : clampRat (-20) 20 toff * 10 ≤ ((200 : Int) : Rat) := by
    push_cast; linarith
  exact pyTrunc_abs_bounds 200 _ (by norm_num) h1 h2

/-! ## Claim theorems: C8, C9, C10 -/

/-- C8 (code bug): with the first `connect()` succeeding, the second
serialized call returns successfully by reusing the already connected
client instead of failing fast — exactly one `establish_connection`
happens, and no call of the pair produces the "Already connecting" error:
`asyncio.Lock.acquire()` always returns `True`, so the branch raising
`Exception("Already connecting")` is dead code. -/
theorem c8_code_bug :
    asyncioLockAcquire = true ∧
    (twoConnectCalls c8Env).1.1 = ConnectOutcome.ok ∧
    (twoConnectCalls c8Env).1.2 = ConnectOutcome.ok ∧
    (twoConnectCalls c8Env).1.2 ≠ ConnectOutcome.error "Already connecting" ∧
    ((twoConnectCalls c8Env).2.filter
      (fun op => op == GattOp.establishConnection)).length = 1 ∧
    (connectCall true ⟨true⟩ c8Env).2.2 = [] := by
  decide

/-- C9 (counterexample): `read_boost` invoked while the session is not
connected fails immediately — it returns `None` and performs neither a
reconnect attempt nor any GATT traffic, contradicting the claim that
every public operation first triggers a reconnect. -/
theorem c9_counterexample :
    readBoost false [1, 0, 0, 0, 60, 0, 30, 0] = (none, []) ∧
    GattOp.connectAttempt ∉ (readBoost false [1, 0, 0, 0, 60, 0, 30, 0]).2 :=
  ⟨rfl, by simp [readBoost]⟩

/-- C9 (amended): only the split-characteristic operations and the
force-control operations call `ensure_connection`, so only they begin
with a reconnect attempt when the session is disconnected; the plain
characteristic operations, `read_boost` among them, return a failure
immediately with no reconnect attempt and no GATT traffic. -/
theorem c9_amended :
    (∀ raw : List Nat, readBoost false raw = (none, [])) ∧
    (∀ uuid : String,
      (readSplitConnectOps false uuid).head? = some GattOp.connectAttempt) ∧
    (∀ (uuid : String) (data : List Nat),
      (writeSplitConnectOps false uuid data).head? =
        some GattOp.connectAttempt) ∧
    (∀ (knownModes current : List Nat) (mode : Nat) (t toff : Rat)
        (connectedNow : Bool),
      ((writeForceControl knownModes false connectedNow current mode
        t toff).2).head? = some GattOp.connectAttempt) := by
  refine ⟨fun raw => rfl, fun uuid => rfl, fun uuid data => rfl, ?_⟩
  intro knownModes current mode t toff connectedNow
  simp only [writeForceControl, ensureConnectionOps, Bool.false_eq_true,
    not_false_eq_true, if_true, if_false]
  split <;> try rfl
  split <;> try rfl
  split <;> rfl

/-- C10: `write_force_control` abandons the write with a failure when the
record it read back is shorter than 19 bytes; otherwise the buffer it
writes differs from the bytes read only at bytes 8–9 (the mode-5 absolute
temperature, clamped into [5.0, 35.0] °C and scaled by 10), bytes 12–13
(the mode-6 offset, clamped into [−20.0, 20.0] °C and scaled by 10) and
byte 17 (replaced by the requested mode exactly when it is a known
external-control mode); every other byte is written back as read. -/
theorem c10_theorem (knownModes current : List Nat) (mode : Nat)
    (t toff : Rat) :
    (current.length < 19 →
      writeForceControl knownModes true true current mode t toff =
        (false, [GattOp.readChar FORCE_CONTROL_UUID])) ∧
    (19 ≤ current.length →
      writeForceControl knownModes true true current mode t toff =
        (true, [GattOp.readChar FORCE_CONTROL_UUID,
          GattOp.writeChar FORCE_CONTROL_UUID
            (forceControlBuffer knownModes current mode t toff)]) ∧
      (forceControlBuffer knownModes current mode t toff).length =
        current.length ∧
      (∀ i, i ≠ 8 → i ≠ 9 → i ≠ 12 → i ≠ 13 → i ≠ 17 →
        (forceControlBuffer knownModes current mode t toff)[i]? =
          current[i]?) ∧
      (forceControlBuffer knownModes current mode t toff)[8]? =
        some (forceControlTempValue t % 256) ∧
      (forceControlBuffer knownModes current mode t toff)[9]? =
        some (forceControlTempValue t / 256 % 256) ∧
      50 ≤ forceControlTempValue t ∧ forceControlTempValue t ≤ 350 ∧
      (forceControlBuffer knownModes current mode t toff)[12]? =
        some (Int.toNat (Int.emod (forceControlOffsetValue toff) 65536) %
          256) ∧
      (forceControlBuffer knownModes current mode t toff)[13]? =
        some (Int.toNat (Int.emod (forceControlOffsetValue toff) 65536) /
          256 % 256) ∧
      -200 ≤ forceControlOffsetValue toff ∧
      forceControlOffsetValue toff ≤ 200 ∧
      (forceControlBuffer knownModes current mode t toff)[17]? =
        (if mode ∈ knownModes then some mode else current[17]?)) := by
  constructor
  · intro h
    simp only [writeForceControl, ensureConnectionOps]
    split_ifs with h1 h2 <;> simp_all
  · intro h
    have h8 : 8 < current.length := by omega
    have h9 : 9 < current.length := by omega
    have h12 : 12 < current.length := by omega
    have h13 : 13 < current.length := by omega
    have h17 : 17 < current.length := by omega
    refine ⟨?_, ?_, ?_, ?_, ?_,
      (forceControlTempValue_bounds t).1, (forceControlTempValue_bounds t).2,
      ?_, ?_,
      (forceControlOffsetValue_bounds toff).1,
      (forceControlOffsetValue_bounds toff).2, ?_⟩
    · simp only [writeForceControl, ensureConnectionOps]
      split_ifs with h1 h2 h3 <;> simp_all
      omega
    · unfold forceControlBuffer
      split <;> simp
    · intro i hi8 hi9 hi12 hi13 hi17
      unfold forceControlBuffer
      split
      · rw [List.getElem?_set_ne (Ne.symm hi17),
          List.getElem?_set_ne (Ne.symm hi13),
          List.getElem?_set_ne (Ne.symm hi12),
          List.getElem?_set_ne (Ne.symm hi9),
          List.getElem?_set_ne (Ne.symm hi8)]
      · rw [List.getElem?_set_ne (Ne.symm hi13),
          List.getElem?_set_ne (Ne.symm hi12),
          List.getElem?_set_ne (Ne.symm hi9),
          List.getElem?_set_ne (Ne.symm hi8)]
    · unfold forceControlBuffer
      split <;>
        simp [List.getElem?_set_ne, List.getElem?_set_eq_of_lt, h8]
    · unfold forceControlBuffer
      split <;>
        simp [List.getElem?_set_ne, List.getElem?_set_eq_of_lt, h9]
    · unfold forceControlBuffer
      split <;>
        simp [List.getElem?_set_ne, List.getElem?_set_eq_of_lt, h12]
    · unfold forceControlBuffer
      split <;>
        simp [List.getElem?_set_ne, List.getElem?_set_eq_of_lt, h13]
    · by_cases hmem : mode ∈ knownModes
      · simp only [forceControlBuffer, if_pos hmem]
        rw [List.getElem?_set_eq_of_lt]
        simp only [List.length_set]
        omega
      · simp only [forceControlBuffer, if_neg hmem]
        rw [List.getElem?_set_ne (by omega : (13 : Nat) ≠ 17),
          List.getElem?_set_ne (by omega : (12 : Nat) ≠ 17),
          List.getElem?_set_ne (by omega : (9 : Nat) ≠ 17),
          List.getElem?_set_ne (by omega : (8 : Nat) ≠ 17)]

def c10Known : List Nat := [1, 5, 6]

def c10Current : List Nat := List.replicate 19 0

/-- C10 witness: a 19-byte all-zero record, mode 5, temperature 21 °C,
offset 1 °C. -/
theorem c10_witness :
    19 ≤ c10Current.length ∧
    (writeForceControl c10Known true true c10Current 5 21 1 =
      (true, [GattOp.readChar FORCE_CONTROL_UUID,
        GattOp.writeChar FORCE_CONTROL_UUID
          (forceControlBuffer c10Known c10Current 5 21 1)]) ∧
     (forceControlBuffer c10Known c10Current 5 21 1).length =
       c10Current.length ∧
     (∀ i, i ≠ 8 → i ≠ 9 → i ≠ 12 → i ≠ 13 → i ≠ 17 →
       (forceControlBuffer c10Known c10Current 5 21 1)[i]? =
         c10Current[i]?) ∧
     (forceControlBuffer c10Known c10Current 5 21 1)[8]? =
       some (forceControlTempValue 21 % 256) ∧
     (forceControlBuffer c10Known c10Current 5 21 1)[9]? =
       some (forceControlTempValue 21 / 256 % 256) ∧
     50 ≤ forceControlTempValue 21 ∧ forceControlTempValue 21 ≤ 350 ∧
     (forceControlBuffer c10Known c10Current 5 21 1)[12]? =
       some (Int.toNat (Int.emod (forceControlOffsetValue 1) 65536) % 256) ∧
     (forceControlBuffer c10Known c10Current 5 21 1)[13]? =
       some (Int.toNat (Int.emod (forceControlOffsetValue 1) 65536) / 256 %
         256) ∧
     -200 ≤ forceControlOffsetValue 1 ∧ forceControlOffsetValue 1 ≤ 200 ∧
     (forceControlBuffer c10Known c10Current 5 21 1)[17]? =
       (if 5 ∈ c10Known then some 5 else c10Current[17]?)) :=
  ⟨by decide, (c10_theorem c10Known c10Current 5 21 1).2 (by decide)⟩

end HassEnstoBle
